import Mathlib

/-!
Verification development for the Lighthouse AI expense-management system.

The submission pipeline itself (policy resolution, validation, anomaly
scoring, decision routing, the HITL gate and the keyed document store) runs
inside an n8n workflow whose node graph is only documented in the
repository; the TypeScript sources in the repository are the frontend: the
manual expense form, the n8n client service, the admin pages and the log
viewer.  Definitions below are therefore of two kinds: direct shallow
embeddings of the TypeScript functions (named after them), and models of
the documented pipeline behaviour, each marked "Modelled from the spec".

Strings are embedded as lists of characters so that substring search,
lower-casing and equality are all executable and decidable.
-/

/-- Does the first list start with the second?  Embeds the leading-segment
test that underlies the JavaScript String.includes search. -/
def strStartsWith : List Char → List Char → Bool
  | _, [] => true
  | [], _ :: _ => false
  | a :: as, b :: bs => a == b && strStartsWith as bs

/-- Substring containment on character lists; embeds the JavaScript
String.includes method used throughout the log viewer. -/
def strIncludes : List Char → List Char → Bool
  | [], pat => strStartsWith [] pat
  | h :: t, pat => strStartsWith (h :: t) pat || strIncludes t pat

/-- Character-wise lower-casing; embeds String.toLowerCase. -/
def toLowerStr (s : List Char) : List Char := s.map Char.toLower

/-- Security threat tags from the admin log viewer (part_003, lines
234-254): event types containing one of these are highlighted as threats. -/
def SECURITY_THREAT_TAGS : List (List Char) :=
  ["injection detected".toList,
   "injection_detected".toList,
   "prompt injection".toList,
   "prompt_injection".toList,
   "filtering detected".toList,
   "blacklisted".toList,
   "blacklist".toList,
   "blacklisted_word".toList,
   "blacklisted word".toList,
   "bad_prompt".toList,
   "bad prompt".toList,
   "malicious".toList,
   "blocked".toList,
   "threat detected".toList,
   "security_alert".toList,
   "flagged_dangerous".toList,
   "vulnerability".toList,
   "exploit".toList,
   "attack".toList]

/-- The negative markers checked first by isSecurityThreat (part_003,
lines 263-265): their presence means the event is NOT a threat. -/
def negativeMarkers : List (List Char) :=
  ["not detected".toList,
   "no prompt".toList,
   "not_detected".toList,
   "no filtering".toList,
   "safe model".toList,
   "passed".toList]

/-- The if-condition of isSecurityThreat (part_003, lines 264-265): the
lower-cased event type contains one of the six negative markers. -/
def hasNegativeMarker (type : List Char) : Bool :=
  strIncludes type "not detected".toList || strIncludes type "no prompt".toList ||
  strIncludes type "not_detected".toList || strIncludes type "no filtering".toList ||
  strIncludes type "safe model".toList || strIncludes type "passed".toList

/-- Embeds isSecurityThreat (part_003, lines 260-271): lower-case the event
type, return false on any negative marker, otherwise scan the threat tags. -/
def isSecurityThreat (eventType : List Char) : Bool :=
  let type := toLowerStr eventType
  if hasNegativeMarker type then
    false
  else
    SECURITY_THREAT_TAGS.any (fun tag => strIncludes type tag)

/-- A log entry as displayed by the admin log viewer (part_003, lines
23-31). -/
structure LogEntry where
  timestamp : List Char
  message : List Char
  workflow : List Char
  node : List Char
  eventType : List Char
  executionId : List Char
  userId : List Char
deriving DecidableEq

/-- The classification step the log viewer applies to an entry: the source
isSecurityThreat only reads eventType and performs no writes, so the step
returns the threat flag together with the untouched entry. -/
def securityScan (e : LogEntry) : Bool × LogEntry :=
  (isSecurityThreat e.eventType, e)

/-! ## Manual expense form (part_005) -/

/-- The manual expense form state (ExpenseFormData in types/expense.ts);
the receipt file is modelled by whether one was chosen. -/
structure ExpenseFormData where
  employeeId : List Char
  category : List Char
  amount : Rat
  currency : List Char
  description : List Char
  vendor : List Char
  paymentMethod : List Char
  dateIncurred : List Char
  reimbursementType : List Char
  receiptChosen : Bool
deriving DecidableEq

/-- Embeds the amount branch of handleInputChange (part_005, lines
694-702): parseFloat(value) with the JavaScript or-zero fallback, so a
non-numeric entry (parseFloat gives NaN, modelled as none) is stored as 0. -/
def handleAmountChange (parsed : Option Rat) : Rat :=
  match parsed with
  | none => 0
  | some q => q

/-- JavaScript String.trim on a character list. -/
def trimStr (s : List Char) : List Char :=
  ((s.dropWhile Char.isWhitespace).reverse.dropWhile Char.isWhitespace).reverse

/-- Embeds validateManualForm (part_005, lines 742-759): the checks run in
source order and the first failing check's message is returned; none means
the form is valid. -/
def validateManualForm (f : ExpenseFormData) : Option (List Char) :=
  if f.category = [] then some "Please select a category.".toList
  else if f.amount ≤ 0 then some "Amount must be greater than 0.".toList
  else if trimStr f.description = [] then some "Description is required.".toList
  else if f.paymentMethod = [] then some "Please select a payment method.".toList
  else if f.reimbursementType = [] then some "Please select a reimbursement type.".toList
  else none

/-- The complete expense data built by handleManualSubmit (part_005, lines
788-794) just before the network call: the form plus the generated
transaction id, submission date and receiptAttached flag. -/
structure CompleteExpenseData where
  form : ExpenseFormData
  transactionId : List Char
  dateSubmitted : List Char
  receiptAttached : Bool
deriving DecidableEq

/-- Outcome of handleManualSubmit before any network traffic: either the
validation error is shown and nothing is sent, or the complete payload goes
to submitExpense (and from there to the pipeline and the anomaly scorer). -/
inductive ManualSubmitOutcome where
  | rejected (errorMessage : List Char)
  | sent (payload : CompleteExpenseData)
deriving DecidableEq

/-- Embeds handleManualSubmit (part_005, lines 773-814) up to the network
boundary: on a validation error it sets the error and returns; otherwise it
builds the complete expense data and calls submitExpense. -/
def handleManualSubmit (f : ExpenseFormData) (txId today : List Char) :
    ManualSubmitOutcome :=
  match validateManualForm f with
  | some e => ManualSubmitOutcome.rejected e
  | none =>
      ManualSubmitOutcome.sent
        { form := f, transactionId := txId, dateSubmitted := today,
          receiptAttached := f.receiptChosen }

/-! ## n8n client service (part_006) -/

/-- ExpenseStatus from types/expense.ts, lines 13-20. -/
inductive ExpenseStatus where
  | pending
  | approved
  | denied
  | flagged
deriving DecidableEq

/-- Embeds mapStatus (part_006, lines 396-403): undefined or empty is
pending, otherwise compare the lower-cased status; anything unrecognized is
pending. -/
def mapStatus (status : Option (List Char)) : ExpenseStatus :=
  match status with
  | none => ExpenseStatus.pending
  | some s0 =>
      if s0 = [] then ExpenseStatus.pending
      else
        let s := toLowerStr s0
        if s = "approved".toList then ExpenseStatus.approved
        else if s = "denied".toList ∨ s = "rejected".toList then ExpenseStatus.denied
        else if s = "flagged".toList then ExpenseStatus.flagged
        else ExpenseStatus.pending

/-- A row of the Master Expense sheet as returned by the fetch webhook;
every column may be absent (the source reads each with a fallback). -/
structure SheetRow where
  TransactionID : Option (List Char)
  EmployeeID : Option (List Char)
  Category : Option (List Char)
  Amount : Option Rat
  AmountUSD : Option Rat
  Currency : Option (List Char)
  Description : Option (List Char)
  Vendor : Option (List Char)
  DateIncurred : Option (List Char)
  DateSubmitted : Option (List Char)
  Status : Option (List Char)
  PaymentMethod : Option (List Char)
  ReimbursementType : Option (List Char)
  ReceiptAttached : Option (List Char)
deriving DecidableEq

/-- The frontend Expense record (types/expense.ts, lines 66-100),
restricted to the fields mapSheetRowToExpense fills. -/
structure Expense where
  id : List Char
  transactionId : Option (List Char)
  employeeId : List Char
  category : List Char
  amount : Rat
  amountUSD : Option Rat
  currency : List Char
  description : List Char
  vendor : Option (List Char)
  dateIncurred : List Char
  dateSubmitted : Option (List Char)
  status : ExpenseStatus
  paymentMethod : List Char
  reimbursementType : List Char
  receiptAttached : Bool
deriving DecidableEq

/-- Embeds mapSheetRowToExpense (part_006, lines 373-391) for sheet rows
(the camelCase fallbacks of the source apply to a different response shape
and the Date.now id fallback is a fresh id, modelled by the fixed
placeholder the source template starts with). -/
def mapSheetRowToExpense (row : SheetRow) : Expense :=
  { id := row.TransactionID.getD "exp-".toList,
    transactionId := row.TransactionID,
    employeeId := row.EmployeeID.getD [],
    category := row.Category.getD "Other".toList,
    amount := row.Amount.getD 0,
    amountUSD := row.AmountUSD,
    currency := row.Currency.getD "USD".toList,
    description := row.Description.getD [],
    vendor := row.Vendor,
    dateIncurred := row.DateIncurred.getD [],
    dateSubmitted := row.DateSubmitted,
    status := mapStatus row.Status,
    paymentMethod := row.PaymentMethod.getD [],
    reimbursementType := row.ReimbursementType.getD [],
    receiptAttached := row.ReceiptAttached = some "Y".toList }

/-- Outcome of the underlying fetch call: the HTTP layer answered with a
body, answered with an error status, or the request itself failed (network
down, store unavailable); beta abstracts the parsed body. -/
inductive FetchOutcome (beta : Type) where
  | ok (body : beta)
  | httpError (status : Nat)
  | networkError (errMessage : List Char)
deriving DecidableEq

/-- The response-body shapes fetchEmployeeExpenses distinguishes
(part_006, lines 315-363): empty text, a direct expense array, an
expenses-wrapped object, a body.expenses wrapper, a single expense object,
or anything else. -/
inductive FetchBody where
  | emptyText
  | expenseArray (rows : List SheetRow)
  | wrappedExpenses (rows : List SheetRow)
  | bodyWrapped (rows : List SheetRow)
  | singleExpense (row : SheetRow)
  | unrecognized
deriving DecidableEq

/-- Embeds fetchEmployeeExpenses (part_006, lines 290-368): every failure
path ends in the catch-all (or the no-expenses fall-through) and returns
the empty list; an HTTP error status is not checked, but its error body
fails JSON.parse and lands in the same catch. -/
def fetchEmployeeExpenses (r : FetchOutcome FetchBody) : List Expense :=
  match r with
  | FetchOutcome.networkError _ => []
  | FetchOutcome.httpError _ => []
  | FetchOutcome.ok FetchBody.emptyText => []
  | FetchOutcome.ok (FetchBody.expenseArray rows) => rows.map mapSheetRowToExpense
  | FetchOutcome.ok (FetchBody.wrappedExpenses rows) => rows.map mapSheetRowToExpense
  | FetchOutcome.ok (FetchBody.bodyWrapped rows) => rows.map mapSheetRowToExpense
  | FetchOutcome.ok (FetchBody.singleExpense row) => [mapSheetRowToExpense row]
  | FetchOutcome.ok FetchBody.unrecognized => []

/-- The parsed JSON body of a successful submit response (part_006, lines
146-153). -/
structure SubmitResponseBody where
  message : Option (List Char)
  expenseId : Option (List Char)
deriving DecidableEq

/-- What submitExpense returns to its caller. -/
structure SubmitResult where
  success : Bool
  message : List Char
  expenseId : Option (List Char)
deriving DecidableEq

/-- Embeds submitExpense (part_006, lines 113-161): a non-ok HTTP status is
thrown as an Error whose message carries the status, the catch turns any
Error into success false with that Error's own message, and only a thrown
non-Error value gets the generic retry message. -/
def submitExpense (r : FetchOutcome SubmitResponseBody) : SubmitResult :=
  match r with
  | FetchOutcome.ok body =>
      { success := true,
        message := body.message.getD "Expense submitted successfully".toList,
        expenseId := body.expenseId }
  | FetchOutcome.httpError status =>
      { success := false,
        message := "HTTP error! status: ".toList ++ (Nat.repr status).toList,
        expenseId := none }
  | FetchOutcome.networkError msg =>
      { success := false, message := msg, expenseId := none }

/-! ## The documented pipeline

The decision pipeline (security filter, policy resolver and validator,
anomaly scorer, decision router, HITL gate, keyed store) executes inside
the n8n workflow, which the repository ships only as documentation; the
definitions below are modelled from the specification. -/

/-- Modelled from the spec (section 3, Decision): the decision states of a
submission.  The n8n workflow that maintains them is absent from the
repository; the frontend mirror of this type is ExpenseStatus. -/
inductive DecisionState where
  | Pending
  | Approved
  | Denied
  | Flagged
deriving DecidableEq

/-- Modelled from the spec (section 3, Decision): the legal transitions,
Pending to Approved or Denied or Flagged, and Flagged to Approved or
Denied via HITL; no other transition is legal. -/
def legalTransition : DecisionState → DecisionState → Bool
  | DecisionState.Pending, DecisionState.Approved => true
  | DecisionState.Pending, DecisionState.Denied => true
  | DecisionState.Pending, DecisionState.Flagged => true
  | DecisionState.Flagged, DecisionState.Approved => true
  | DecisionState.Flagged, DecisionState.Denied => true
  | _, _ => false

/-- Modelled from the spec (section 3, Decision): a requested transition is
applied only when legal; an illegal request leaves the status unchanged. -/
def applyDecision (cur : DecisionState) (target : DecisionState) : DecisionState :=
  if legalTransition cur target then target else cur

/-- Modelled from the spec (section 4.4): one policy violation, a kind and
a human-readable reason. -/
structure Violation where
  kind : List Char
  reason : List Char
deriving DecidableEq

/-- Modelled from the spec (section 3): the Policy Validator output. -/
structure ValidationResult where
  ok : Bool
  violations : List Violation
deriving DecidableEq

/-- Modelled from the spec (section 3): the Anomaly Scorer output. -/
structure AnomalySignal where
  score : Nat
  reasons : List (List Char)
deriving DecidableEq

/-- Reason strings are concatenated with a separator when several
violations or anomaly reasons accompany one decision. -/
def concatReasons (rs : List (List Char)) : List Char :=
  List.intercalate "; ".toList rs

/-- Modelled from the spec (section 4.6): a routed decision with its
reason. -/
inductive RouteDecision where
  | Approved (reason : List Char)
  | Denied (reason : List Char)
  | Flagged (reason : List Char)
deriving DecidableEq

/-- Modelled from the spec (section 4.6): the default flagging threshold. -/
def FLAG_THRESHOLD : Nat := 50

/-- Modelled from the spec (section 4.6): the Decision Router, a pure
function evaluating its four rules in precedence order - validation
failure, anomaly threshold, explicit approval threshold, auto-approve. -/
def routeDecision (v : ValidationResult) (a : AnomalySignal)
    (requiresApproval : Bool) (amount approvalThreshold : Rat) : RouteDecision :=
  if v.ok = false then
    RouteDecision.Denied (concatReasons (v.violations.map Violation.reason))
  else if FLAG_THRESHOLD ≤ a.score then
    RouteDecision.Flagged (concatReasons a.reasons)
  else if requiresApproval ∧ approvalThreshold < amount then
    RouteDecision.Flagged "explicit approval required".toList
  else
    RouteDecision.Approved "within policy, no anomalies".toList

/-- Modelled from the spec (section 4.5): which of the five additive
anomaly signals a submission triggers, as established against the policy
and the employee's recent history. -/
structure AnomalySignals where
  amountHigh : Bool
  dateOutOfRange : Bool
  personalUse : Bool
  lateSubmission : Bool
  currencyMismatch : Bool
deriving DecidableEq

/-- Modelled from the spec (section 4.5): the contributing signals as
weight-reason pairs, listed highest weight first (40, 35, 25, 15, 10). -/
def anomalyContributions (s : AnomalySignals) : List (Nat × List Char) :=
  (if s.amountHigh then [(40, "amount more than 3x the trailing mean".toList)] else []) ++
  (if s.dateOutOfRange then [(35, "date incurred in the future or too old".toList)] else []) ++
  (if s.personalUse then [(25, "description suggests personal use".toList)] else []) ++
  (if s.lateSubmission then [(15, "submission lag beyond threshold".toList)] else []) ++
  (if s.currencyMismatch then [(10, "currency mismatch without conversion".toList)] else [])

/-- Modelled from the spec (section 4.5): the raw additive score. -/
def anomalyRawScore (s : AnomalySignals) : Nat :=
  (if s.amountHigh then 40 else 0) +
  (if s.dateOutOfRange then 35 else 0) +
  (if s.personalUse then 25 else 0) +
  (if s.lateSubmission then 15 else 0) +
  (if s.currencyMismatch then 10 else 0)

/-- Modelled from the spec (section 4.5): the Anomaly Scorer output, the
weight sum capped at 100 with the reasons in descending-weight order. -/
def scoreAnomaly (s : AnomalySignals) : AnomalySignal :=
  { score := min (anomalyRawScore s) 100,
    reasons := (anomalyContributions s).map Prod.snd }

/-- No triggered signal at all. -/
def noSignals : AnomalySignals :=
  { amountHigh := false, dateOutOfRange := false, personalUse := false,
    lateSubmission := false, currencyMismatch := false }

/-- Signal sets ordered pointwise: every signal triggered on the left is
also triggered on the right (the right side has added signals). -/
def signalsLe (s t : AnomalySignals) : Bool :=
  (!s.amountHigh || t.amountHigh) &&
  (!s.dateOutOfRange || t.dateOutOfRange) &&
  (!s.personalUse || t.personalUse) &&
  (!s.lateSubmission || t.lateSubmission) &&
  (!s.currencyMismatch || t.currencyMismatch)

/-- Modelled from the spec (sections 3 and 4.3): a policy. -/
structure Policy where
  id : List Char
  category : List Char
  maxAmount : Rat
  currency : List Char
  requiresReceipt : Bool
  requiresApproval : Bool
  approvalThreshold : Rat
  active : Bool
deriving DecidableEq

/-- Modelled from the spec (section 4.3): exact category match among the
active policies first, then the active Global policy, else none. -/
def resolvePolicy (policies : List Policy) (category : List Char) : Option Policy :=
  match policies.find? (fun p => p.active && decide (p.category = category)) with
  | some p => some p
  | none => policies.find? (fun p => p.active && decide (p.category = "Global".toList))

/-- Modelled from the spec (sections 4.3 and 7): when resolution fails the
submission is denied with the documented reason, otherwise the resolved
policy flows on to validation. -/
def resolveStage (policies : List Policy) (category : List Char) :
    Except RouteDecision Policy :=
  match resolvePolicy policies category with
  | some p => Except.ok p
  | none => Except.error (RouteDecision.Denied "no applicable policy".toList)

/-! ## The keyed document store and the HITL gate (modelled from the spec) -/

/-- Modelled from the spec (sections 3 and 9): one stored submission row of
the keyed document store, with the mutable decision fields. -/
structure StoredSubmission where
  txId : List Char
  employeeId : List Char
  amount : Rat
  category : List Char
  status : DecisionState
  decisionReason : List Char
  actor : List Char
deriving DecidableEq

/-- The store, keyed by transaction id. -/
abbrev Store : Type := List StoredSubmission

/-- Point lookup by transaction id. -/
def findByTx (store : Store) (tx : List Char) : Option StoredSubmission :=
  store.find? (fun r => decide (r.txId = tx))

/-- Does the store already hold the transaction id? -/
def containsTx (store : Store) (tx : List Char) : Bool :=
  store.any (fun r => decide (r.txId = tx))

/-- Result of a submit against the store. -/
inductive SubmitStoreResult where
  | accepted
  | duplicateRejected
deriving DecidableEq

/-- Modelled from the spec (sections 3 and 8): submitting a row whose
transaction id is already present is rejected and the store is returned
untouched; otherwise the row is appended. -/
def submitToStore (store : Store) (s : StoredSubmission) :
    SubmitStoreResult × Store :=
  if containsTx store s.txId then (SubmitStoreResult.duplicateRejected, store)
  else (SubmitStoreResult.accepted, store ++ [s])

/-- Update the row holding the given transaction id, leaving every other
row alone. -/
def updateTx (store : Store) (tx : List Char)
    (f : StoredSubmission → StoredSubmission) : Store :=
  store.map (fun r => if r.txId = tx then f r else r)

/-- Result of a HITL resolution attempt. -/
inductive ResolveResult where
  | resolved
  | alreadyResolved
  | notFound
deriving DecidableEq

/-- Modelled from the spec (section 4.7): resolve(transactionId, adminId,
decision, reason) is legal only when the current state is Flagged; it then
writes the chosen terminal state, the admin's reason (with the default
fallback) and the admin as actor.  Any attempt on a non-Flagged row is
answered with AlreadyResolvedError and changes nothing; attempts on the
same id are serialized, so concurrent resolutions are two calls in
sequence. -/
def resolveHITL (store : Store) (tx adminId : List Char) (approve : Bool)
    (reason : Option (List Char)) : ResolveResult × Store :=
  match findByTx store tx with
  | none => (ResolveResult.notFound, store)
  | some rec0 =>
      if rec0.status = DecisionState.Flagged then
        (ResolveResult.resolved,
         updateTx store tx (fun r =>
           { r with
             status := if approve then DecisionState.Approved else DecisionState.Denied,
             decisionReason := reason.getD "Resolved by administrator".toList,
             actor := adminId }))
      else (ResolveResult.alreadyResolved, store)

/-- Global uniqueness of transaction ids across the store. -/
def uniqueTxIds (store : Store) : Prop :=
  (store.map StoredSubmission.txId).Nodup

/-- A form with no category selected and a negative amount. -/
def emptyCategoryForm : ExpenseFormData :=
  { employeeId := "EMP-001".toList, category := [], amount := -5,
    currency := "USD".toList, description := "team lunch".toList, vendor := [],
    paymentMethod := "Corporate Card".toList, dateIncurred := "2025-01-01".toList,
    reimbursementType := "Employee".toList, receiptChosen := false }

/-- A form that is valid except for a zero amount (as left by a non-numeric
entry in the amount field). -/
def zeroAmountForm : ExpenseFormData :=
  { employeeId := "EMP-001".toList, category := "Travel".toList, amount := 0,
    currency := "USD".toList, description := "flight to NYC".toList, vendor := [],
    paymentMethod := "Corporate Card".toList, dateIncurred := "2025-01-01".toList,
    reimbursementType := "Employee".toList, receiptChosen := true }

/-- Only the submission-lag signal triggered. -/
def lagOnlySignals : AnomalySignals :=
  { amountHigh := false, dateOutOfRange := false, personalUse := false,
    lateSubmission := true, currencyMismatch := false }

/-- The submission-lag signal plus the high-amount signal. -/
def lagAndAmountSignals : AnomalySignals :=
  { amountHigh := true, dateOutOfRange := false, personalUse := false,
    lateSubmission := true, currencyMismatch := false }

/-- An active Travel policy with a strict limit. -/
def travelPolicy : Policy :=
  { id := "pol-travel".toList, category := "Travel".toList, maxAmount := 100,
    currency := "USD".toList, requiresReceipt := true, requiresApproval := false,
    approvalThreshold := 0, active := true }

/-- An active Global policy with a generous limit. -/
def globalPolicy : Policy :=
  { id := "pol-global".toList, category := "Global".toList, maxAmount := 100000,
    currency := "USD".toList, requiresReceipt := false, requiresApproval := false,
    approvalThreshold := 0, active := true }

/-- A store holding one flagged submission awaiting HITL. -/
def flaggedRec : StoredSubmission :=
  { txId := "T-001".toList, employeeId := "EMP-001".toList, amount := 6000,
    category := "Travel".toList, status := DecisionState.Flagged,
    decisionReason := "anomaly score above threshold".toList, actor := "system".toList }

/-- A stored submission sharing the transaction id of flaggedRec but
otherwise entirely different. -/
def duplicateRec : StoredSubmission :=
  { txId := "T-001".toList, employeeId := "EMP-999".toList, amount := 12,
    category := "Meals".toList, status := DecisionState.Pending,
    decisionReason := [], actor := "system".toList }

/-! ## Theorems -/

/-- Claim C10: an event-type string containing, case-insensitively, any of
the negative markers is never classified as a security threat, even when it
also contains a threat tag, so such events are not highlighted in the log
viewer. -/
theorem negative_marker_never_security_threat (s m : List Char)
    (hm : m ∈ negativeMarkers) (hinc : strIncludes (toLowerStr s) m = true) :
    isSecurityThreat s = false := by
  have hneg : hasNegativeMarker (toLowerStr s) = true := by
    simp only [negativeMarkers, List.mem_cons, List.not_mem_nil, or_false] at hm
    unfold hasNegativeMarker
    rcases hm with rfl | rfl | rfl | rfl | rfl | rfl <;> rw [hinc] <;> simp
  simp [isSecurityThreat, hneg]

/-- Witness for claim C10 at a concrete event type containing both the
threat tag "attack" and the marker "not detected". -/
theorem negative_marker_never_security_threat_witness :
    "not detected".toList ∈ negativeMarkers ∧
    strIncludes (toLowerStr "Attack NOT Detected".toList) "not detected".toList = true ∧
    strIncludes (toLowerStr "Attack NOT Detected".toList) "attack".toList = true ∧
    isSecurityThreat "Attack NOT Detected".toList = false :=
  ⟨by decide, by decide, by decide,
   negative_marker_never_security_threat "Attack NOT Detected".toList
     "not detected".toList (by decide) (by decide)⟩

/-- Claim C8: security-threat classification is deterministic and
side-effect-free - it is a pure function of the event type, two runs on the
same entry agree, the inspected entry is returned unmodified, and
re-classifying the returned entry yields the same flag. -/
theorem security_classification_pure (e : LogEntry) :
    securityScan e = securityScan e ∧
    (securityScan e).2 = e ∧
    (securityScan e).1 = isSecurityThreat e.eventType ∧
    securityScan (securityScan e).2 = securityScan e :=
  ⟨rfl, rfl, rfl, rfl⟩

/-- Claim C1: whenever validation failed, the Decision Router denies with
the concatenated violations, whatever the anomaly score and the approval
threshold. -/
theorem validation_failure_always_denied (v : ValidationResult)
    (a : AnomalySignal) (requiresApproval : Bool)
    (amount approvalThreshold : Rat) (h : v.ok = false) :
    routeDecision v a requiresApproval amount approvalThreshold =
      RouteDecision.Denied (concatReasons (v.violations.map Violation.reason)) := by
  simp [routeDecision, h]

/-- Witness for claim C1: a failed validation with a low anomaly score and
an exceeded approval threshold is still denied, not flagged. -/
theorem validation_failure_always_denied_witness :
    routeDecision
      (ValidationResult.mk false
        [Violation.mk "amount_exceeds_limit".toList "amount exceeds limit".toList])
      (AnomalySignal.mk 10 []) true 6000 100 =
      RouteDecision.Denied "amount exceeds limit".toList := by
  have h := validation_failure_always_denied
    (ValidationResult.mk false
      [Violation.mk "amount_exceeds_limit".toList "amount exceeds limit".toList])
    (AnomalySignal.mk 10 []) true 6000 100 rfl
  rw [h]
  decide

/-- Claim C9 counterexample: an infrastructure failure during
fetchEmployeeExpenses is not surfaced to the caller - the caller receives
the empty list, indistinguishable from a successful fetch of an empty
history, with no failure message and no retry hint. -/
theorem fetch_failure_swallowed :
    fetchEmployeeExpenses (FetchOutcome.networkError "Failed to fetch".toList) = [] ∧
    fetchEmployeeExpenses (FetchOutcome.networkError "Failed to fetch".toList) =
      fetchEmployeeExpenses (FetchOutcome.ok FetchBody.emptyText) :=
  ⟨rfl, rfl⟩

/-- Claim C9 amended: submitExpense surfaces infrastructure failures to the
caller as a success-false result carrying the error's own message (no extra
retry hint is appended), while fetchEmployeeExpenses swallows them and
returns an empty list; neither function lets the failure escape as an
exception. -/
theorem infrastructure_failure_handling (status : Nat) (msg : List Char) :
    (submitExpense (FetchOutcome.httpError status)).success = false ∧
    (submitExpense (FetchOutcome.httpError status)).message =
      "HTTP error! status: ".toList ++ (Nat.repr status).toList ∧
    (submitExpense (FetchOutcome.networkError msg)).success = false ∧
    (submitExpense (FetchOutcome.networkError msg)).message = msg ∧
    fetchEmployeeExpenses (FetchOutcome.httpError status) = [] ∧
    fetchEmployeeExpenses (FetchOutcome.networkError msg) = [] :=
  ⟨rfl, rfl, rfl, rfl, rfl, rfl⟩

/-- Claim C2: submitting any row whose transaction id is already stored is
rejected whatever the rest of its content; the store - and so the existing
record - is returned unchanged, and global uniqueness of transaction ids is
preserved. -/
theorem duplicate_txId_rejected (store : Store) (s : StoredSubmission)
    (h : containsTx store s.txId = true) :
    submitToStore store s = (SubmitStoreResult.duplicateRejected, store) ∧
    (∀ tx, findByTx (submitToStore store s).2 tx = findByTx store tx) ∧
    (uniqueTxIds store → uniqueTxIds (submitToStore store s).2) := by
  have he : submitToStore store s = (SubmitStoreResult.duplicateRejected, store) := by
    simp [submitToStore, h]
  exact ⟨he, fun tx => by rw [he], fun hu => by rw [he]; exact hu⟩

/-- Witness for claim C2: re-submitting transaction id T-001 with entirely
different content is rejected and the store keeps the original record. -/
theorem duplicate_txId_rejected_witness :
    containsTx [flaggedRec] duplicateRec.txId = true ∧
    submitToStore [flaggedRec] duplicateRec =
      (SubmitStoreResult.duplicateRejected, [flaggedRec]) :=
  ⟨by decide, (duplicate_txId_rejected [flaggedRec] duplicateRec (by decide)).1⟩

/-- Claim C3: the decision state machine allows exactly the five documented
transitions, and Approved and Denied are absorbing - no sequence of
requested transitions moves a submission out of a terminal state. -/
theorem decision_state_machine :
    (∀ a b : DecisionState, legalTransition a b = true ↔
      ((a = DecisionState.Pending ∧
          (b = DecisionState.Approved ∨ b = DecisionState.Denied ∨
           b = DecisionState.Flagged)) ∨
       (a = DecisionState.Flagged ∧
          (b = DecisionState.Approved ∨ b = DecisionState.Denied)))) ∧
    (∀ (requests : List DecisionState) (s : DecisionState),
      s = DecisionState.Approved ∨ s = DecisionState.Denied →
      List.foldl applyDecision s requests = s) := by
  constructor
  · intro a b
    cases a <;> cases b <;> decide
  · intro requests
    induction requests with
    | nil => intro s _; rfl
    | cons r rs ih =>
        intro s hs
        have habs : applyDecision s r = s := by
          rcases hs with rfl | rfl <;> cases r <;> decide
        rw [List.foldl_cons, habs]
        exact ih s hs

/-- Witness for claim C3: an Approved submission survives a whole sequence
of requested transitions untouched. -/
theorem decision_state_machine_witness :
    List.foldl applyDecision DecisionState.Approved
      [DecisionState.Pending, DecisionState.Flagged, DecisionState.Denied] =
      DecisionState.Approved :=
  decision_state_machine.2
    [DecisionState.Pending, DecisionState.Flagged, DecisionState.Denied]
    DecisionState.Approved (Or.inl rfl)

/-- Claim C5 counterexample: a form whose amount is non-positive but whose
category is also unselected is refused with the category message, not the
amount message, so the validator does not always report the amount error. -/
theorem amount_error_message_counterexample :
    emptyCategoryForm.amount ≤ 0 ∧
    validateManualForm emptyCategoryForm = some "Please select a category.".toList ∧
    "Please select a category.".toList ≠ "Amount must be greater than 0.".toList :=
  ⟨by norm_num [emptyCategoryForm], by decide, by decide⟩

/-- Claim C5 amended: a non-numeric amount is stored as 0, and every form
with a non-positive amount fails validation (with the amount message
whenever a category is selected, the first failing check's message
otherwise) and is never sent onward, so it cannot reach the anomaly scorer
or any downstream stage. -/
theorem nonpositive_amount_never_submitted (f : ExpenseFormData)
    (h : f.amount ≤ 0) :
    handleAmountChange none ≤ 0 ∧
    (∃ msg, validateManualForm f = some msg) ∧
    (f.category ≠ [] →
      validateManualForm f = some "Amount must be greater than 0.".toList) ∧
    (∀ txId today payload,
      handleManualSubmit f txId today ≠ ManualSubmitOutcome.sent payload) := by
  have hv : ∃ msg, validateManualForm f = some msg := by
    by_cases hc : f.category = []
    · exact ⟨"Please select a category.".toList, by simp [validateManualForm, hc]⟩
    · exact ⟨"Amount must be greater than 0.".toList,
        by simp [validateManualForm, hc, h]⟩
  refine ⟨by norm_num [handleAmountChange], hv, ?_, ?_⟩
  · intro hc
    simp [validateManualForm, hc, h]
  · intro txId today payload hcontra
    rcases hv with ⟨msg, hmsg⟩
    rw [handleManualSubmit, hmsg] at hcontra
    exact absurd hcontra (by simp)

/-- Witness for claim C5 (amended): the otherwise-valid zero-amount form is
refused with the amount message and nothing is sent. -/
theorem nonpositive_amount_never_submitted_witness :
    validateManualForm zeroAmountForm =
      some "Amount must be greater than 0.".toList ∧
    handleManualSubmit zeroAmountForm "T-123456".toList "2025-01-02".toList ≠
      ManualSubmitOutcome.sent
        { form := zeroAmountForm, transactionId := "T-123456".toList,
          dateSubmitted := "2025-01-02".toList, receiptAttached := true } :=
  ⟨(nonpositive_amount_never_submitted zeroAmountForm
      (by norm_num [zeroAmountForm])).2.2.1 (by decide),
   (nonpositive_amount_never_submitted zeroAmountForm
      (by norm_num [zeroAmountForm])).2.2.2 "T-123456".toList "2025-01-02".toList _⟩

/-- Claim C6: the anomaly score is monotone in the triggered signals, is
the weight sum capped at 100 (so never exceeds 100), is 0 with no signals,
and the reasons list carries every contributing signal in the fixed
descending-weight order. -/
theorem anomaly_score_properties :
    (∀ s t : AnomalySignals, signalsLe s t = true →
      (scoreAnomaly s).score ≤ (scoreAnomaly t).score) ∧
    (scoreAnomaly noSignals).score = 0 ∧
    (∀ s, (scoreAnomaly s).score ≤ 100) ∧
    (∀ s, anomalyRawScore s = ((anomalyContributions s).map Prod.fst).sum ∧
      (scoreAnomaly s).score =
        min (((anomalyContributions s).map Prod.fst).sum) 100) ∧
    (∀ s, (scoreAnomaly s).reasons = (anomalyContributions s).map Prod.snd ∧
      List.Pairwise (fun a b => b.1 ≤ a.1) (anomalyContributions s)) ∧
    (∀ s : AnomalySignals,
      (s.amountHigh = true →
        "amount more than 3x the trailing mean".toList ∈ (scoreAnomaly s).reasons) ∧
      (s.dateOutOfRange = true →
        "date incurred in the future or too old".toList ∈ (scoreAnomaly s).reasons) ∧
      (s.personalUse = true →
        "description suggests personal use".toList ∈ (scoreAnomaly s).reasons) ∧
      (s.lateSubmission = true →
        "submission lag beyond threshold".toList ∈ (scoreAnomaly s).reasons) ∧
      (s.currencyMismatch = true →
        "currency mismatch without conversion".toList ∈ (scoreAnomaly s).reasons)) := by
  refine ⟨?_, by decide, ?_, ?_, ?_, ?_⟩
  · intro s t
    rcases s with ⟨a1, a2, a3, a4, a5⟩
    rcases t with ⟨b1, b2, b3, b4, b5⟩
    cases a1 <;> cases a2 <;> cases a3 <;> cases a4 <;> cases a5 <;>
      cases b1 <;> cases b2 <;> cases b3 <;> cases b4 <;> cases b5 <;> decide
  · intro s
    rcases s with ⟨a1, a2, a3, a4, a5⟩
    cases a1 <;> cases a2 <;> cases a3 <;> cases a4 <;> cases a5 <;> decide
  · intro s
    rcases s with ⟨a1, a2, a3, a4, a5⟩
    cases a1 <;> cases a2 <;> cases a3 <;> cases a4 <;> cases a5 <;> exact ⟨by decide, by decide⟩
  · intro s
    rcases s with ⟨a1, a2, a3, a4, a5⟩
    cases a1 <;> cases a2 <;> cases a3 <;> cases a4 <;> cases a5 <;> exact ⟨rfl, by decide⟩
  · intro s
    rcases s with ⟨a1, a2, a3, a4, a5⟩
    cases a1 <;> cases a2 <;> cases a3 <;> cases a4 <;> cases a5 <;> decide

/-- Witness for claim C6: adding the high-amount signal to the lag-only
signal set does not lower the score. -/
theorem anomaly_score_properties_witness :
    signalsLe lagOnlySignals lagAndAmountSignals = true ∧
    (scoreAnomaly lagOnlySignals).score ≤ (scoreAnomaly lagAndAmountSignals).score :=
  ⟨by decide,
   anomaly_score_properties.1 lagOnlySignals lagAndAmountSignals (by decide)⟩

/-- If some list element satisfies the search predicate, the search returns
an element satisfying it. -/
theorem find_some_of_mem_pred {α : Type} (l : List α) (p : α → Bool) (x : α)
    (hx : x ∈ l) (hpx : p x = true) :
    ∃ y, l.find? p = some y ∧ p y = true := by
  induction l with
  | nil => cases hx
  | cons a l ih =>
      by_cases ha : p a = true
      · exact ⟨a, List.find?_cons_of_pos l ha, ha⟩
      · rcases List.mem_cons.mp hx with rfl | hx'
        · exact absurd hpx ha
        · rcases ih hx' with ⟨y, hy, hpy⟩
          exact ⟨y, by rw [List.find?_cons_of_neg l ha, hy], hpy⟩

/-- Claim C7: policy resolution prefers an active exact-category policy
(whatever the limits of Global), and when neither an active exact match nor
an active Global policy exists the stage fails and the submission is denied
with the documented "no applicable policy" reason. -/
theorem policy_resolution (policies : List Policy) (category : List Char) :
    (∀ p, p ∈ policies → p.active = true → p.category = category →
      ∃ q, resolvePolicy policies category = some q ∧ q.active = true ∧
        q.category = category) ∧
    ((∀ p, p ∈ policies → ¬(p.active = true ∧ p.category = category)) →
     (∀ p, p ∈ policies → ¬(p.active = true ∧ p.category = "Global".toList)) →
     resolveStage policies category =
       Except.error (RouteDecision.Denied "no applicable policy".toList)) := by
  constructor
  · intro p hp hact hcat
    have hpred : (fun q => q.active && decide (q.category = category)) p = true := by
      simp [hact, hcat]
    rcases find_some_of_mem_pred policies
      (fun q => q.active && decide (q.category = category)) p hp hpred with
      ⟨q, hq, hpq⟩
    obtain ⟨hqa, hqc⟩ : q.active = true ∧ q.category = category := by
      simpa using hpq
    exact ⟨q, by rw [resolvePolicy, hq], hqa, hqc⟩
  · intro h1 h2
    have hf1 : policies.find? (fun q => q.active && decide (q.category = category)) = none := by
      rw [List.find?_eq_none]
      intro p hp
      simp only [Bool.and_eq_true, decide_eq_true_eq, not_and]
      intro hact
      exact fun hcat => h1 p hp ⟨hact, hcat⟩
    have hf2 : policies.find? (fun q => q.active && decide (q.category = "Global".toList)) = none := by
      rw [List.find?_eq_none]
      intro p hp
      simp only [Bool.and_eq_true, decide_eq_true_eq, not_and]
      intro hact
      exact fun hcat => h2 p hp ⟨hact, hcat⟩
    rw [resolveStage, resolvePolicy, hf1, hf2]

/-- Witness for claim C7: with both the strict Travel policy and the
generous Global policy active, a Travel submission resolves to the Travel
policy; with no policies at all, the stage denies with the documented
reason. -/
theorem policy_resolution_witness :
    (∃ q, resolvePolicy [travelPolicy, globalPolicy] "Travel".toList = some q ∧
      q.active = true ∧ q.category = "Travel".toList) ∧
    resolveStage [] "Travel".toList =
      Except.error (RouteDecision.Denied "no applicable policy".toList) :=
  ⟨(policy_resolution [travelPolicy, globalPolicy] "Travel".toList).1
     travelPolicy (List.mem_cons_self travelPolicy [globalPolicy]) rfl rfl,
   (policy_resolution [] "Travel".toList).2
     (fun p hp => absurd hp (List.not_mem_nil p))
     (fun p hp => absurd hp (List.not_mem_nil p))⟩

/-- Updating the row keyed by a transaction id commutes with looking that
id up, provided the update keeps the key. -/
theorem findByTx_updateTx (store : Store) (tx : List Char)
    (f : StoredSubmission → StoredSubmission)
    (hf : ∀ r, (f r).txId = r.txId) :
    findByTx (updateTx store tx f) tx = (findByTx store tx).map f := by
  induction store with
  | nil => rfl
  | cons a l ih =>
      simp only [findByTx, updateTx] at ih ⊢
      by_cases ha : a.txId = tx
      · simp [List.find?, ha, hf a]
      · have hpa : decide (a.txId = tx) = false := by simp [ha]
        simp only [List.map_cons, if_neg ha, List.find?_cons, hpa]
        exact ih

/-- Claim C4: HITL resolution is legal only from Flagged, and serialized
attempts on one transaction id let exactly one admin win - the first call
resolves and writes the terminal state, reason and actor; the second call
receives AlreadyResolvedError, changes nothing, and the original decision
stands. -/
theorem hitl_exactly_one_resolution (store : Store) (tx a1 a2 : List Char)
    (d1 d2 : Bool) (r1 r2 : Option (List Char)) (rec0 : StoredSubmission)
    (hfind : findByTx store tx = some rec0)
    (hflag : rec0.status = DecisionState.Flagged) :
    (resolveHITL store tx a1 d1 r1).1 = ResolveResult.resolved ∧
    (resolveHITL (resolveHITL store tx a1 d1 r1).2 tx a2 d2 r2).1 =
      ResolveResult.alreadyResolved ∧
    (resolveHITL (resolveHITL store tx a1 d1 r1).2 tx a2 d2 r2).2 =
      (resolveHITL store tx a1 d1 r1).2 ∧
    (∃ rec1, findByTx (resolveHITL store tx a1 d1 r1).2 tx = some rec1 ∧
      rec1.status =
        (if d1 then DecisionState.Approved else DecisionState.Denied) ∧
      rec1.actor = a1 ∧
      rec1.decisionReason = r1.getD "Resolved by administrator".toList) := by
  have h1 : resolveHITL store tx a1 d1 r1 =
      (ResolveResult.resolved,
       updateTx store tx (fun r =>
         { r with
           status := if d1 then DecisionState.Approved else DecisionState.Denied,
           decisionReason := r1.getD "Resolved by administrator".toList,
           actor := a1 })) := by
    rw [resolveHITL, hfind]
    simp [hflag]
  have hstore1 : (resolveHITL store tx a1 d1 r1).2 =
      updateTx store tx (fun r =>
        { r with
          status := if d1 then DecisionState.Approved else DecisionState.Denied,
          decisionReason := r1.getD "Resolved by administrator".toList,
          actor := a1 }) := by
    rw [h1]
  have hfind1 : findByTx (resolveHITL store tx a1 d1 r1).2 tx =
      some { rec0 with
             status := if d1 then DecisionState.Approved else DecisionState.Denied,
             decisionReason := r1.getD "Resolved by administrator".toList,
             actor := a1 } := by
    rw [hstore1, findByTx_updateTx store tx (fun r =>
      { r with
        status := if d1 then DecisionState.Approved else DecisionState.Denied,
        decisionReason := r1.getD "Resolved by administrator".toList,
        actor := a1 }) (fun r => rfl), hfind]
    rfl
  have hterm : ¬(if d1 then DecisionState.Approved else DecisionState.Denied) =
      DecisionState.Flagged := by
    cases d1 <;> simp
  have h2 : resolveHITL (resolveHITL store tx a1 d1 r1).2 tx a2 d2 r2 =
      (ResolveResult.alreadyResolved, (resolveHITL store tx a1 d1 r1).2) := by
    rw [resolveHITL, hfind1]
    simp [hterm]
  refine ⟨by rw [h1], by rw [h2], by rw [h2], ?_⟩
  exact ⟨_, hfind1, rfl, rfl, rfl⟩
/-- Witness for claim C4: two admins resolving the flagged T-001 in turn -
the first approval wins, the second attempt is refused. -/
theorem hitl_exactly_one_resolution_witness :
    (resolveHITL [flaggedRec] "T-001".toList "admin-1".toList true none).1 =
      ResolveResult.resolved ∧
    (resolveHITL
      (resolveHITL [flaggedRec] "T-001".toList "admin-1".toList true none).2
      "T-001".toList "admin-2".toList false none).1 =
      ResolveResult.alreadyResolved := by
  have h := hitl_exactly_one_resolution [flaggedRec] "T-001".toList
    "admin-1".toList "admin-2".toList true false none none flaggedRec
    (by decide) rfl
  exact ⟨h.1, h.2.1⟩
